import Mathlib

/-!
# AI Thought Translator: relay endpoint and client view-model

A shallow embedding of `api/translate.js` (the relay `handler`) and of the
submission path of `src/App.jsx` (`ChatPage.handleSend` and
`App.handleSendMessage`), followed by the properties of the specification
that concern them.

JavaScript values are embedded as `JsVal`; a thrown exception is the `error`
side of `Except JsError`.  The host functions the code calls but does not
define (`fetch`, `JSON.parse`, the `ToString` conversion made by
`new Error(v)`) and the wording of the engine's `TypeError` messages are
fields of `Platform`, so every theorem holds for any behaviour of the host.
-/

namespace ThoughtTranslator

/-! ## JavaScript values -/

/-- JavaScript values handled by the program: the values `JSON.parse` returns,
and `undefined`.  The fields of an object are listed with distinct keys.
Numbers are only tested for truthiness and compared with `0`, so the finite
ones are kept as rationals. -/
inductive JsVal where
  | undefined : JsVal
  | null : JsVal
  | bool (b : Bool) : JsVal
  | num (x : Rat) : JsVal
  | str (s : String) : JsVal
  | arr (items : List JsVal) : JsVal
  | obj (fields : List (String × JsVal)) : JsVal

/-- The two values that have no properties. -/
inductive Nullish where
  | undefined : Nullish
  | null : Nullish
deriving DecidableEq, Repr

/-- The ways the program reads a property: `v.name`, `v[0]`, and the
destructuring `const { name } = source`, where `source` is the text of the
expression destructured. -/
inductive Access where
  | member (name : String) : Access
  | index0 : Access
  | destructure (name : String) (source : String) : Access
deriving DecidableEq, Repr

/-- A thrown exception.  `thrown` is an error object whose message is given,
by `new Error(message)` or by the host function that raised it.  `typeError`
is the `TypeError` the engine raises when a property of `undefined` or `null`
is read; the wording of its message belongs to the engine
(`Platform.typeErrorMessage`). -/
inductive JsError where
  | thrown (name : String) (message : String) : JsError
  | typeError (value : Nullish) (access : Access) : JsError
deriving DecidableEq, Repr

/-- The object built by `new Error(message)`. -/
def mkError (message : String) : JsError :=
  .thrown "Error" message

/-- JavaScript truthiness (`!v` is its negation, `a || b` picks `a` when it holds). -/
def truthy : JsVal → Bool
  | .undefined => false
  | .null => false
  | .bool b => b
  | .num x => decide (x ≠ 0)
  | .str s => decide (s ≠ "")
  | .arr _ => true
  | .obj _ => true

/-- The expression `a || b`. -/
def jsOr (a b : JsVal) : JsVal :=
  if truthy a then a else b

/-- Number of UTF-16 code units of a string (its JavaScript `length`). -/
def utf16Length (s : String) : Nat :=
  (s.data.map (fun c => if c.toNat < 0x10000 then 1 else 2)).sum

/-- Member access `v.name` for the property names the program reads
(`userQuery`, `systemPrompt`, `error`, `message`, `candidates`, `length`,
`content`, `parts`, `text`; none of them is inherited from a prototype).
Reading a property of `undefined` or `null` throws a `TypeError`. -/
def getProp (v : JsVal) (name : String) : Except JsError JsVal :=
  match v with
  | .undefined => .error (.typeError .undefined (.member name))
  | .null => .error (.typeError .null (.member name))
  | .obj fields => .ok ((fields.lookup name).getD .undefined)
  | .arr items => .ok (if name = "length" then .num items.length else .undefined)
  | .str s => .ok (if name = "length" then .num (utf16Length s) else .undefined)
  | .bool _ => .ok .undefined
  | .num _ => .ok .undefined

/-- Indexed access `v[0]`.  On a string it yields the one-element string at
index 0 (for a first character outside the basic plane JavaScript yields half
of it; only properties of that value are read afterwards, and they are
`undefined` either way). -/
def getIndex0 (v : JsVal) : Except JsError JsVal :=
  match v with
  | .undefined => .error (.typeError .undefined .index0)
  | .null => .error (.typeError .null .index0)
  | .arr items => .ok (items.headD .undefined)
  | .obj fields => .ok ((fields.lookup "0").getD .undefined)
  | .str s => .ok (match s.data with
      | [] => .undefined
      | c :: _ => .str (String.singleton c))
  | .bool _ => .ok .undefined
  | .num _ => .ok .undefined

/-- One property of a destructuring declaration `const { name } = source`,
where `v` is the value of `source`: the read of `v.name`, with the
`TypeError` of a destructuring when `v` is `undefined` or `null`. -/
def destructureProp (source : String) (v : JsVal) (name : String) : Except JsError JsVal :=
  match v with
  | .undefined => .error (.typeError .undefined (.destructure name source))
  | .null => .error (.typeError .null (.destructure name source))
  | .obj fields => getProp (.obj fields) name
  | .arr items => getProp (.arr items) name
  | .str s => getProp (.str s) name
  | .bool b => getProp (.bool b) name
  | .num x => getProp (.num x) name

/-- The comparison `v === 0`. -/
def isZero : JsVal → Bool
  | .num x => decide (x = 0)
  | _ => false

/-- The try/catch statement: the handler runs on whatever the block throws. -/
def tryCatch {α : Type} (block : Except JsError α) (handle : JsError → Except JsError α) :
    Except JsError α :=
  match block with
  | .ok a => .ok a
  | .error e => handle e

/-! ## The host -/

/-- A call of `fetch(url, options)`; `body` is the value handed to
`JSON.stringify`. -/
structure FetchCall where
  url : String
  method : String
  headers : List (String × String)
  body : JsVal

/-- The part of a fetch `Response` the code reads: the status and the body
text.  (A failure while the body is read has the same effect, in both
programs, as a rejected `fetch`, and is covered by it.) -/
structure FetchResponse where
  status : Nat
  body : String

/-- The `ok` property of a response: the status is in the range 200-299. -/
def FetchResponse.ok (r : FetchResponse) : Bool :=
  decide (200 ≤ r.status) && decide (r.status ≤ 299)

/-- Host functions used by the code and defined outside the repository. -/
structure Platform where
  /-- The function `fetch`: rejects (transport failure) or resolves to a response. -/
  fetch : FetchCall → Except JsError FetchResponse
  /-- The function `JSON.parse`: throws a `SyntaxError` on text that is not JSON. -/
  jsonParse : String → Except JsError JsVal
  /-- The conversion `ToString` applied by `new Error(v)` to its argument. -/
  toStr : JsVal → Except JsError String
  /-- The wording the engine gives to the message of its `TypeError`. -/
  typeErrorMessage : Nullish → Access → String

/-- The property `error.message` of a caught exception. -/
def JsError.message (error : JsError) (P : Platform) : String :=
  match error with
  | .thrown _ message => message
  | .typeError value access => P.typeErrorMessage value access

/-- The method `response.text()`. -/
def FetchResponse.text (r : FetchResponse) : Except JsError String :=
  .ok r.body

/-- The method `response.json()`. -/
def FetchResponse.json (P : Platform) (r : FetchResponse) : Except JsError JsVal :=
  P.jsonParse r.body

/-- What a run did: the calls of `fetch` it issued, in order, and how it ended
(a value, or a thrown exception that nothing caught). -/
structure Run (α : Type) where
  calls : List FetchCall
  result : Except JsError α

/-! ## The relay endpoint: `api/translate.js` -/

/-- The inbound request: `req.method` and `req.body`. -/
structure Request where
  method : String
  body : JsVal

/-- What the handler told `res`: the status, the headers set and the value
passed to `res.json`. -/
structure Response where
  status : Nat
  headers : List (String × List String)
  body : JsVal

/-- The condition `!apiKey` on `process.env.GEMINI_API_KEY` (unset, or the empty string). -/
def apiKeyMissing : Option String → Bool
  | none => true
  | some k => decide (k = "")

/-- The constant `apiUrl` of the handler. -/
def apiUrl (apiKey : String) : String :=
  "https://generativelanguage.googleapis.com/v1beta/models/gemini-2.5-flash-preview-09-2025:generateContent?key="
    ++ apiKey

/-- The constant `payload` of the handler. -/
def payload (userQuery systemPrompt : JsVal) : JsVal :=
  .obj [("contents", .arr [.obj [("parts", .arr [.obj [("text", userQuery)]])]]),
        ("systemInstruction", .obj [("parts", .arr [.obj [("text", systemPrompt)]])])]

/-- The call the handler makes to the external API. -/
def geminiCall (apiKey : String) (userQuery systemPrompt : JsVal) : FetchCall :=
  { url := apiUrl apiKey
    method := "POST"
    headers := [("Content-Type", "application/json")]
    body := payload userQuery systemPrompt }

/-- Lines 30-45 of the handler, the block of its `try`: the call, the parse of
the answer and the two replies.  The argument of `console.error` on line 40 is
evaluated before the reply of line 41 is built. -/
def relayBlock (P : Platform) (call : FetchCall) : Except JsError Response := do
  let geminiResponse ← P.fetch call
  let data ← geminiResponse.json P
  if !geminiResponse.ok then
    let err ← getProp data "error"
    let _logged ← getProp err "message"
    let err ← getProp data "error"
    let message ← getProp err "message"
    return ⟨geminiResponse.status, [], .obj [("error", jsOr message (.str "Failed to fetch from Gemini."))]⟩
  return ⟨200, [], data⟩

/-- The reply of the `catch` of the handler. -/
def internalServerError : Response :=
  ⟨500, [], .obj [("error", .str "Internal server error.")]⟩

/-- The function `handler(req, res)` of `api/translate.js`. -/
def handler (P : Platform) (apiKey : Option String) (req : Request) : Run Response :=
  if req.method ≠ "POST" then
    ⟨[], .ok ⟨405, [("Allow", ["POST"])],
      .obj [("error", .str ("Method " ++ req.method ++ " Not Allowed"))]⟩⟩
  else
    -- const { userQuery, systemPrompt } = req.body;
    match destructureProp "req.body" req.body "userQuery",
      destructureProp "req.body" req.body "systemPrompt" with
    | .error e, _ => ⟨[], .error e⟩
    | .ok _, .error e => ⟨[], .error e⟩
    | .ok userQuery, .ok systemPrompt =>
      if apiKeyMissing apiKey then
        ⟨[], .ok ⟨500, [], .obj [("error", .str "API key is not configured.")]⟩⟩
      else
        let call := geminiCall (apiKey.getD "") userQuery systemPrompt
        ⟨[call], tryCatch (relayBlock P call) (fun _error => .ok internalServerError)⟩

/-! ## The client view-model: `src/App.jsx` -/

/-- Author of a turn: the `role` field, `'user'` or `'ai'`. -/
inductive Role where
  | user : Role
  | ai : Role
deriving DecidableEq, Repr

/-- One message of the conversation: `{ role, content }`. -/
structure Turn where
  role : Role
  content : JsVal

/-- The state of `App` that the submission path touches: `messages` and `isLoading`. -/
structure AppState where
  messages : List Turn
  isLoading : Bool

/-- The initial value of `messages`. -/
def initialMessages : List Turn :=
  [⟨.ai, .str ("Hello! I am the AI Thought Translator. What raw, unclear thought can I decode " ++
    "into a structured concept for you?")⟩]

/-- The constant `systemPrompt` of `handleSendMessage`. -/
def systemPrompt : String :=
  "You are the \x27AI Thought Translator\x27. Your mission is to decode a user\x27s raw, unclear, or incomplete thought and translate it into a clear, structured concept.\n" ++
  "\n" ++
  "**CRITICAL RULE: Your tone must be simple, clear, and beginner-friendly. Explain it like you would to a smart friend. Avoid all academic or business jargon.**\n" ++
  "\n" ++
  "Your response MUST follow this exact 4-part structure using Markdown:\n" ++
  "\n" ++
  "1.  **Concept Decoded:** [Identify the core idea in 1-3 simple words. e.g., \x27Keeping things in Orbit\x27 or \x27Wasted Meeting Time\x27.]\n" ++
  "2.  **Clear Explanation:** [Provide a concise, simple definition. Explain *why* the user\x27s thought is important, using plain English.]\n" ++
  "3.  **Helpful Analogy:** [Provide a simple, real-world analogy to make the- concept stick. e.g., \x27It\x27s like throwing a ball...\x27]\n" ++
  "4.  **Actionable Next Steps:** [Suggest 2-3 simple, practical next steps. Do not suggest complex frameworks like \x27RACI Matrix\x27 unless you explain it simply.]\n"

/-- The constant `userQuery` of `handleSendMessage`. -/
def userQuery (userInput : String) : String :=
  "User\x27s raw thought: \"" ++ userInput ++ "\""

/-- The call `fetch('/api/translate', ...)` of `handleSendMessage`. -/
def translateCall (userInput : String) : FetchCall :=
  { url := "/api/translate"
    method := "POST"
    headers := [("Content-Type", "application/json")]
    body := .obj [("userQuery", .str (userQuery userInput)), ("systemPrompt", .str systemPrompt)] }

/-- The template literal of lines 213 and 217, with the response status filled in. -/
def statusMessage (status : Nat) : String :=
  "API call failed with status: " ++ toString status

/-- Lines 203-219: the body of `if (!response.ok)`.  The `throw` of line 213
stands inside the `try` whose `catch (e)` follows on line 214, so that
handler runs on it as it does on a failure of `JSON.parse`. -/
def rejectResponse (P : Platform) (response : FetchResponse) : Except JsError Unit := do
  let errorText ← response.text
  tryCatch
    (do
      let errorData ← P.jsonParse errorText
      let embedded ← getProp errorData "error"
      let message ← P.toStr (jsOr embedded (.str (statusMessage response.status)))
      throw (mkError message))
    (fun _e =>
      throw (mkError (if errorText ≠ "" then errorText else statusMessage response.status)))

/-- The message thrown on line 225. -/
def noContentMessage : String :=
  "API returned no content. Check safety settings or prompt."

/-- Lines 195-228, the block of the outer `try` up to the value of `text`. -/
def translationBlock (P : Platform) (userInput : String) : Except JsError JsVal := do
  let response ← P.fetch (translateCall userInput)
  if !response.ok then
    rejectResponse P response
  let result ← response.json P
  -- !result.candidates || result.candidates.length === 0 || !result.candidates[0].content
  let noContent ← (do
    let candidates ← getProp result "candidates"
    if !truthy candidates then return true
    let candidates ← getProp result "candidates"
    let length ← getProp candidates "length"
    if isZero length then return true
    let candidates ← getProp result "candidates"
    let first ← getIndex0 candidates
    let content ← getProp first "content"
    return !truthy content : Except JsError Bool)
  if noContent then
    throw (mkError noContentMessage)
  let candidates ← getProp result "candidates"
  let first ← getIndex0 candidates
  let content ← getProp first "content"
  let parts ← getProp content "parts"
  let part ← getIndex0 parts
  getProp part "text"

/-- The start of every error turn (line 234). -/
def errorIntro : String :=
  "Sorry, I encountered an error: "

/-- The function `handleSendMessage(userInput)` of `App`, run until it settles:
the user turn is appended and the flag set, the block of the `try` runs, its
`catch` appends the error turn, and `finally` clears the flag.  The state
updates are the functional updates of the source (`prev => [...prev, turn]`). -/
def handleSendMessage (P : Platform) (userInput : String) (st : AppState) : Run AppState :=
  let newUserMessage : Turn := ⟨.user, .str userInput⟩
  let st : AppState := { st with messages := st.messages ++ [newUserMessage] }
  let st : AppState := { st with isLoading := true }
  let settled : Except JsError AppState :=
    tryCatch
      (do
        let text ← translationBlock P userInput
        return { st with messages := st.messages ++ [⟨.ai, text⟩] })
      (fun error =>
        .ok { st with messages := st.messages ++ [⟨.ai, .str (errorIntro ++ error.message P)⟩] })
  ⟨[translateCall userInput], settled.map (fun st => { st with isLoading := false })⟩

/-- White space and line terminators of ECMAScript, the characters that
`String.prototype.trim` removes. -/
def isJsWhiteSpace (c : Char) : Bool :=
  let n := c.toNat
  n = 0x09 || n = 0x0A || n = 0x0B || n = 0x0C || n = 0x0D || n = 0x20 || n = 0xA0 ||
  n = 0x1680 || (decide (0x2000 ≤ n) && decide (n ≤ 0x200A)) || n = 0x2028 || n = 0x2029 ||
  n = 0x202F || n = 0x205F || n = 0x3000 || n = 0xFEFF

/-- The method `s.trim()`. -/
def trim (s : String) : String :=
  String.mk ((s.data.dropWhile isJsWhiteSpace).reverse.dropWhile isJsWhiteSpace).reverse

/-- What one run of `ChatPage.handleSend` does: the arguments of its calls of
the prop `sendMessage`, in order, and the value it leaves in `input`. -/
structure SendEffect where
  sendMessageCalls : List String
  input : String

/-- The function `handleSend(e)` of `ChatPage`, for the current `input` and
the prop `isLoading`. -/
def handleSend (input : String) (isLoading : Bool) : SendEffect :=
  if trim input = "" || isLoading then
    ⟨[], input⟩
  else
    ⟨[input], ""⟩

/-- The chat page as rendered by `App`: the state of `App` and the `input` of `ChatPage`. -/
structure ChatView where
  app : AppState
  input : String

/-- A form submission: `handleSend` runs with `isLoading` of `App`, and the
prop `sendMessage` is `handleSendMessage` (line 267). -/
def submit (P : Platform) (v : ChatView) : Run ChatView :=
  let effect := handleSend v.input v.app.isLoading
  effect.sendMessageCalls.foldl
    (fun (run : Run ChatView) userInput =>
      match run.result with
      | .error e => ⟨run.calls, .error e⟩
      | .ok view =>
        let sent := handleSendMessage P userInput view.app
        ⟨run.calls ++ sent.calls, sent.result.map (fun app => { view with app := app })⟩)
    ⟨[], .ok { v with input := effect.input }⟩

/-! ## Sample hosts for the examples -/

/-- The words `undefined` and `null`. -/
def Nullish.text : Nullish → String
  | .undefined => "undefined"
  | .null => "null"

/-- The message of a `TypeError` as V8 (Node.js, Chromium) words it. -/
def v8TypeErrorMessage (value : Nullish) (access : Access) : String :=
  match access with
  | .member name =>
    "Cannot read properties of " ++ value.text ++ " (reading \x27" ++ name ++ "\x27)"
  | .index0 => "Cannot read properties of " ++ value.text ++ " (reading \x270\x27)"
  | .destructure name source =>
    "Cannot destructure property \x27" ++ name ++ "\x27 of \x27" ++ source ++
      "\x27 as it is " ++ value.text ++ "."

/-- A host for the examples: `fetch` gives `outcome` to every call and
`JSON.parse` knows the texts listed in `parses` and rejects every other text.
`ToString` is exact on the values the examples hand to it (strings, objects,
booleans, `undefined` and `null`); the engine is V8. -/
def sampleHost (outcome : Except JsError FetchResponse) (parses : List (String × JsVal)) :
    Platform :=
  { fetch := fun _ => outcome
    jsonParse := fun text =>
      match parses.lookup text with
      | some v => .ok v
      | none => .error (.thrown "SyntaxError" "Unexpected token")
    toStr := fun v =>
      match v with
      | .str s => .ok s
      | .undefined => .ok "undefined"
      | .null => .ok "null"
      | .bool true => .ok "true"
      | .bool false => .ok "false"
      | _ => .ok "[object Object]"
    typeErrorMessage := v8TypeErrorMessage }

/-- A well-formed request body: `{ userQuery: "q", systemPrompt: "p" }`. -/
def sampleBody : JsVal :=
  .obj [("userQuery", .str "q"), ("systemPrompt", .str "p")]

/-- The text `{"error":{"message":"quota exceeded"}}`. -/
def quotaText : String :=
  "\x7b\"error\":\x7b\"message\":\"quota exceeded\"\x7d\x7d"

/-- The value of `quotaText`. -/
def quotaJson : JsVal :=
  .obj [("error", .obj [("message", .str "quota exceeded")])]

/-- A host whose external API answers 429 with `quotaText`. -/
def quotaHost : Platform :=
  sampleHost (.ok ⟨429, quotaText⟩) [(quotaText, quotaJson)]

/-- The text `{"candidates":[{"content":{"parts":[{"text":"Hello"}]}}]}`. -/
def helloText : String :=
  "\x7b\"candidates\":[\x7b\"content\":\x7b\"parts\":[\x7b\"text\":\"Hello\"\x7d]\x7d\x7d]\x7d"

/-- The value of `helloText`. -/
def helloJson : JsVal :=
  .obj [("candidates", .arr [.obj [("content", .obj [("parts", .arr [.obj [("text", .str "Hello")]])])]])]

/-- A host whose `fetch` answers 200 with `helloText`. -/
def helloHost : Platform :=
  sampleHost (.ok ⟨200, helloText⟩) [(helloText, helloJson)]

/-! ## Lemmas on the relay endpoint -/

theorem handler_result_of_call (P : Platform) (apiKey : Option String) (req : Request)
    (call : FetchCall) (hcall : call ∈ (handler P apiKey req).calls) :
    (handler P apiKey req).result =
      tryCatch (relayBlock P call) (fun _ => .ok internalServerError) := by
  unfold handler at hcall ⊢
  by_cases hpost : req.method = "POST"
  · cases huq : destructureProp "req.body" req.body "userQuery" <;>
      cases hsp : destructureProp "req.body" req.body "systemPrompt" <;>
      cases hkey : apiKeyMissing apiKey <;>
      simp [hpost, huq, hsp, hkey] at hcall ⊢
    subst hcall
    rfl
  · simp [hpost] at hcall

/-- The handler issues its one call exactly when the method is POST, the body
can be destructured and the credential is configured. -/
theorem handler_issues_one_call (P : Platform) (apiKey : Option String) (req : Request)
    (hpost : req.method = "POST") (hkey : apiKeyMissing apiKey = false)
    (hu : req.body ≠ .undefined) (hn : req.body ≠ .null) :
    ∃ userQuery systemPrompt, getProp req.body "userQuery" = .ok userQuery ∧
      getProp req.body "systemPrompt" = .ok systemPrompt ∧
      (handler P apiKey req).calls = [geminiCall (apiKey.getD "") userQuery systemPrompt] := by
  cases hbody : req.body <;> simp [hbody] at hu hn <;>
    simp [handler, hpost, hkey, hbody, getProp, destructureProp]

theorem destructureProp_ok_of_readable (source : String) (v : JsVal) (name : String)
    (hu : v ≠ .undefined) (hn : v ≠ .null) : ∃ w, destructureProp source v name = .ok w := by
  cases v <;> simp [destructureProp, getProp] at *

theorem relayBlock_success (P : Platform) (call : FetchCall) (upstream : FetchResponse)
    (data : JsVal) (hanswer : P.fetch call = .ok upstream) (hok : upstream.ok = true)
    (hbody : P.jsonParse upstream.body = .ok data) :
    relayBlock P call = .ok ⟨200, [], data⟩ := by
  simp [relayBlock, FetchResponse.json, hanswer, hok, hbody, bind, Except.bind, pure,
    Except.pure]

theorem relayBlock_upstream_error (P : Platform) (call : FetchCall) (upstream : FetchResponse)
    (data err message : JsVal) (hanswer : P.fetch call = .ok upstream)
    (hok : upstream.ok = false) (hbody : P.jsonParse upstream.body = .ok data)
    (herr : getProp data "error" = .ok err) (hmsg : getProp err "message" = .ok message) :
    relayBlock P call = .ok ⟨upstream.status, [],
      .obj [("error", jsOr message (.str "Failed to fetch from Gemini."))]⟩ := by
  simp [relayBlock, FetchResponse.json, hanswer, hok, hbody, herr, hmsg, bind, Except.bind,
    pure, Except.pure]

/-! ## Lemmas on the client view-model -/

theorem getProp_arr_length (items : List JsVal) :
    getProp (.arr items) "length" = .ok (.num items.length) := by
  simp [getProp]

theorem getIndex0_arr_cons (first : JsVal) (rest : List JsVal) :
    getIndex0 (.arr (first :: rest)) = .ok first := rfl

theorem isZero_length_cons (rest : List JsVal) :
    isZero (.num ((rest.length : Rat) + 1)) = false := by
  simp only [isZero, decide_eq_false_iff_not]
  exact_mod_cast Nat.succ_ne_zero rest.length

theorem truthy_arr (items : List JsVal) : truthy (.arr items) = true := rfl

theorem getProp_null (name : String) :
    getProp .null name = .error (.typeError .null (.member name)) := rfl


/-- The inner `try` of `rejectResponse` never completes: whatever `JSON.parse`
and `ToString` do, its block ends in a throw, which its own `catch` replaces by
an error built from the raw text. -/
theorem rejectResponse_throws (P : Platform) (response : FetchResponse) :
    rejectResponse P response =
      .error (mkError (if response.body ≠ "" then response.body
        else statusMessage response.status)) := by
  unfold rejectResponse
  cases h1 : P.jsonParse response.body with
  | error e =>
    simp [FetchResponse.text, h1, tryCatch, bind, Except.bind, throw, throwThe,
      MonadExceptOf.throw]
  | ok errorData =>
    cases h2 : getProp errorData "error" with
    | error e =>
      simp [FetchResponse.text, h1, h2, tryCatch, bind, Except.bind, throw, throwThe,
        MonadExceptOf.throw]
    | ok embedded =>
      cases h3 : P.toStr (jsOr embedded (.str (statusMessage response.status))) <;>
        simp [FetchResponse.text, h1, h2, h3, tryCatch, bind, Except.bind, throw, throwThe,
          MonadExceptOf.throw]

theorem translationBlock_of_not_ok (P : Platform) (userInput : String)
    (response : FetchResponse) (hfetch : P.fetch (translateCall userInput) = .ok response)
    (hok : response.ok = false) :
    translationBlock P userInput =
      .error (mkError (if response.body ≠ "" then response.body
        else statusMessage response.status)) := by
  simp [translationBlock, hfetch, hok, rejectResponse_throws, bind, Except.bind]

theorem handleSendMessage_of_block (P : Platform) (userInput : String) (st : AppState) :
    handleSendMessage P userInput st =
      ⟨[translateCall userInput],
        .ok ⟨st.messages ++ [⟨.user, .str userInput⟩,
          ⟨.ai, match translationBlock P userInput with
            | .ok text => text
            | .error error => .str (errorIntro ++ error.message P)⟩], false⟩⟩ := by
  unfold handleSendMessage
  cases translationBlock P userInput <;>
    simp [tryCatch, bind, Except.bind, pure, Except.pure, Except.map]

theorem trim_of_white (s : String) (h : ∀ c ∈ s.data, isJsWhiteSpace c = true) :
    trim s = "" := by
  have hdrop : s.data.dropWhile isJsWhiteSpace = [] := by
    rw [List.dropWhile_eq_nil_iff]
    exact h
  simp [trim, hdrop]

theorem submit_of_guard (P : Platform) (v : ChatView) (hinput : trim v.input ≠ "")
    (hidle : v.app.isLoading = false) :
    submit P v =
      ⟨(handleSendMessage P v.input v.app).calls,
        (handleSendMessage P v.input v.app).result.map (fun app => ⟨app, ""⟩)⟩ := by
  simp [submit, handleSend, hinput, hidle]

/-! ## Properties of the relay endpoint -/

/-- C4: for a POST request with a configured credential, when the external API
answers the call of the handler with a non-success status `s` and a JSON body
whose `error` object carries the non-empty message `m`, the handler responds
with status `s` and the JSON body `{ error: m }`. -/
theorem handler_relays_upstream_error_message (P : Platform) (apiKey : Option String)
    (req : Request) (call : FetchCall) (s : Nat) (text m : String) (data err : JsVal)
    (hpost : req.method = "POST") (hkey : apiKeyMissing apiKey = false)
    (hcall : call ∈ (handler P apiKey req).calls)
    (hanswer : P.fetch call = .ok ⟨s, text⟩)
    (hstatus : ¬ (200 ≤ s ∧ s ≤ 299))
    (hbody : P.jsonParse text = .ok data)
    (herr : getProp data "error" = .ok err)
    (hmsg : getProp err "message" = .ok (.str m))
    (hm : m ≠ "") :
    (handler P apiKey req).calls = [call] ∧
      (handler P apiKey req).result = .ok ⟨s, [], .obj [("error", .str m)]⟩ := by
  have hok : (⟨s, text⟩ : FetchResponse).ok = false := by
    simp only [FetchResponse.ok]
    by_cases h1 : 200 ≤ s <;> by_cases h2 : s ≤ 299 <;> simp_all
  refine ⟨?_, ?_⟩
  · unfold handler at hcall ⊢
    cases huq : destructureProp "req.body" req.body "userQuery" <;>
      cases hsp : destructureProp "req.body" req.body "systemPrompt" <;>
      simp [hpost, huq, hsp, hkey] at hcall ⊢
    exact hcall.symm
  · rw [handler_result_of_call P apiKey req call hcall,
      relayBlock_upstream_error P call ⟨s, text⟩ data err (.str m) hanswer hok hbody herr hmsg]
    simp [tryCatch, jsOr, truthy, hm]

/-- Witness of C4: status 429 with the body `{ error: { message: "quota exceeded" } }`. -/
theorem handler_relays_upstream_error_message_witness :
    (handler quotaHost (some "key") ⟨"POST", sampleBody⟩).calls
        = [geminiCall "key" (.str "q") (.str "p")] ∧
      (handler quotaHost (some "key") ⟨"POST", sampleBody⟩).result
        = .ok ⟨429, [], .obj [("error", .str "quota exceeded")]⟩ :=
  handler_relays_upstream_error_message quotaHost (some "key") ⟨"POST", sampleBody⟩
    (geminiCall "key" (.str "q") (.str "p")) 429 quotaText "quota exceeded" quotaJson
    (.obj [("message", .str "quota exceeded")])
    rfl (by decide) (by simp [handler, sampleBody, destructureProp, getProp, apiKeyMissing]; rfl)
    rfl (by decide) (by simp [quotaHost, sampleHost]) (by simp [quotaJson, getProp])
    (by simp [getProp]) (by decide)

/-- C5: for a POST request with a configured credential, when the external API
answers the call of the handler with a success status and a JSON body `d`, the
handler responds with status 200 and the body `d` itself. -/
theorem handler_relays_success_body (P : Platform) (apiKey : Option String) (req : Request)
    (call : FetchCall) (upstream : FetchResponse) (d : JsVal)
    (hpost : req.method = "POST") (hkey : apiKeyMissing apiKey = false)
    (hcall : call ∈ (handler P apiKey req).calls)
    (hanswer : P.fetch call = .ok upstream)
    (hstatus : 200 ≤ upstream.status ∧ upstream.status ≤ 299)
    (hbody : P.jsonParse upstream.body = .ok d) :
    (handler P apiKey req).result = .ok ⟨200, [], d⟩ := by
  have hok : upstream.ok = true := by
    simp [FetchResponse.ok, hstatus.1, hstatus.2]
  have _ := hpost
  have _ := hkey
  rw [handler_result_of_call P apiKey req call hcall,
    relayBlock_success P call upstream d hanswer hok hbody]
  rfl

/-- Witness of C5: status 200 with a body of one candidate. -/
theorem handler_relays_success_body_witness :
    (handler helloHost (some "key") ⟨"POST", sampleBody⟩).result = .ok ⟨200, [], helloJson⟩ :=
  handler_relays_success_body helloHost (some "key") ⟨"POST", sampleBody⟩
    (geminiCall "key" (.str "q") (.str "p")) ⟨200, helloText⟩ helloJson
    rfl (by decide) (by simp [handler, sampleBody, destructureProp, getProp, apiKeyMissing]; rfl)
    rfl (by decide) (by simp [helloHost, sampleHost])

/-- C3, evaluated where it fails: the external API answers 503 with the JSON
body `{}`, which has no `error` object.  Reading `data.error.message` throws,
the `catch` of the handler runs, and the reply carries status 500, not 503. -/
theorem handler_upstream_error_without_error_object :
    (handler (sampleHost (.ok ⟨503, "\x7b\x7d"⟩) [("\x7b\x7d", .obj [])]) (some "key")
        ⟨"POST", sampleBody⟩).result
      = .ok ⟨500, [], .obj [("error", .str "Internal server error.")]⟩ := by
  rw [handler_result_of_call _ _ _ (geminiCall "key" (.str "q") (.str "p"))
    (by simp [handler, sampleBody, destructureProp, getProp, apiKeyMissing]; rfl)]
  simp [relayBlock, sampleHost, FetchResponse.json, FetchResponse.ok, getProp, tryCatch,
    internalServerError, bind, Except.bind]

/-- C6 fails as stated: a POST request without a body (`req.body` is
`undefined`) and no credential.  The destructuring of line 9 throws before the
credential is looked at, so the handler sends no reply at all. -/
theorem handler_missing_key_without_body :
    (handler (sampleHost (.ok ⟨200, helloText⟩) []) none ⟨"POST", .undefined⟩).result
        = .error (.typeError .undefined (.destructure "userQuery" "req.body")) ∧
      (handler (sampleHost (.ok ⟨200, helloText⟩) []) none ⟨"POST", .undefined⟩).result
        ≠ .ok ⟨500, [], .obj [("error", .str "API key is not configured.")]⟩ := by
  constructor
  · simp [handler, destructureProp]
  · simp [handler, destructureProp]

/-- C6, amended: for every POST request whose body is neither `undefined` nor
`null`, when the credential is unset or empty the handler responds with status
500 and the JSON body `{ error: "API key is not configured." }` and makes no
call to the external API. -/
theorem handler_missing_key (P : Platform) (apiKey : Option String) (req : Request)
    (hpost : req.method = "POST") (hkey : apiKey = none ∨ apiKey = some "")
    (hu : req.body ≠ .undefined) (hn : req.body ≠ .null) :
    (handler P apiKey req).calls = [] ∧
      (handler P apiKey req).result
        = .ok ⟨500, [], .obj [("error", .str "API key is not configured.")]⟩ := by
  obtain ⟨uq, huq⟩ := destructureProp_ok_of_readable "req.body" req.body "userQuery" hu hn
  obtain ⟨sp, hsp⟩ := destructureProp_ok_of_readable "req.body" req.body "systemPrompt" hu hn
  have hmissing : apiKeyMissing apiKey = true := by
    rcases hkey with h | h <;> simp [h, apiKeyMissing]
  simp [handler, hpost, huq, hsp, hmissing]

/-- Witness of C6, amended: a well-formed body and no credential. -/
theorem handler_missing_key_witness :
    (handler helloHost none ⟨"POST", sampleBody⟩).calls = [] ∧
      (handler helloHost none ⟨"POST", sampleBody⟩).result
        = .ok ⟨500, [], .obj [("error", .str "API key is not configured.")]⟩ :=
  handler_missing_key helloHost none ⟨"POST", sampleBody⟩ rfl (Or.inl rfl)
    (by simp [sampleBody]) (by simp [sampleBody])

/-- C7: for every request whose method is not POST, whatever its body and the
credential, the handler responds with status 405, sets the header `Allow` to
the list `["POST"]`, returns the JSON body `{ error: "Method <method> Not
Allowed" }` and makes no call to the external API. -/
theorem handler_rejects_other_methods (P : Platform) (apiKey : Option String) (req : Request)
    (hmethod : req.method ≠ "POST") :
    (handler P apiKey req).calls = [] ∧
      (handler P apiKey req).result
        = .ok ⟨405, [("Allow", ["POST"])],
            .obj [("error", .str ("Method " ++ req.method ++ " Not Allowed"))]⟩ := by
  simp [handler, hmethod]

/-- Witness of C7: a GET request without a body, the credential configured. -/
theorem handler_rejects_other_methods_witness :
    (handler helloHost (some "key") ⟨"GET", .undefined⟩).calls = [] ∧
      (handler helloHost (some "key") ⟨"GET", .undefined⟩).result
        = .ok ⟨405, [("Allow", ["POST"])],
            .obj [("error", .str ("Method " ++ "GET" ++ " Not Allowed"))]⟩ :=
  handler_rejects_other_methods helloHost (some "key") ⟨"GET", .undefined⟩ (by decide)

/-! ## Properties of the client view-model -/

/-- C1: for every submission that passes the guard of `handleSend` (the input
is not empty after trimming and no call is in flight) and for every behaviour
of the host (so for every outcome of the outbound call), `handleSendMessage`
settles without throwing and the turn list is then the previous list followed
by one user turn holding the submitted text and one ai turn; the length grows
by exactly 2 and every earlier turn keeps its place. -/
theorem submit_appends_user_turn_and_ai_turn (P : Platform) (v : ChatView)
    (hinput : trim v.input ≠ "") (hidle : v.app.isLoading = false) :
    ∃ (settled : ChatView) (reply : JsVal),
      (submit P v).result = .ok settled ∧
      settled.app.messages = v.app.messages ++ [⟨.user, .str v.input⟩, ⟨.ai, reply⟩] ∧
      settled.app.messages.length = v.app.messages.length + 2 ∧
      ∀ i, i < v.app.messages.length →
        settled.app.messages.get? i = v.app.messages.get? i := by
  rw [submit_of_guard P v hinput hidle, handleSendMessage_of_block]
  refine ⟨_, _, rfl, rfl, ?_, ?_⟩
  · simp
  · intro i hi
    simp [List.getElem?_append_left hi]

/-- Witness of C1: the text `hi` submitted on the initial conversation, the
relay answering with one candidate. -/
theorem submit_appends_user_turn_and_ai_turn_witness :
    ∃ (settled : ChatView) (reply : JsVal),
      (submit helloHost ⟨⟨initialMessages, false⟩, "hi"⟩).result = .ok settled ∧
      settled.app.messages = initialMessages ++ [⟨.user, .str "hi"⟩, ⟨.ai, reply⟩] ∧
      settled.app.messages.length = initialMessages.length + 2 ∧
      ∀ i, i < initialMessages.length →
        settled.app.messages.get? i = initialMessages.get? i :=
  submit_appends_user_turn_and_ai_turn helloHost ⟨⟨initialMessages, false⟩, "hi"⟩
    (by decide) rfl

/-- C2, evaluated where it fails: the relay answers 500 with the body
`{"error":"API key is not configured."}`.  The ai turn carries the raw body
text after the error introduction, not the embedded message. -/
theorem handleSendMessage_shows_raw_error_body :
    (handleSendMessage
        (sampleHost (.ok ⟨500, "\x7b\"error\":\"API key is not configured.\"\x7d"⟩)
          [("\x7b\"error\":\"API key is not configured.\"\x7d",
            .obj [("error", .str "API key is not configured.")])])
        "hi" ⟨initialMessages, false⟩).result
      = .ok ⟨initialMessages ++ [⟨.user, .str "hi"⟩,
          ⟨.ai, .str ("Sorry, I encountered an error: " ++
            "\x7b\"error\":\"API key is not configured.\"\x7d")⟩], false⟩ := by
  rw [handleSendMessage_of_block,
    translationBlock_of_not_ok _ _ ⟨500, "\x7b\"error\":\"API key is not configured.\"\x7d"⟩
      rfl (by decide)]
  simp [mkError, errorIntro, JsError.message]

/-- C8: when the input is empty or made of white space only, or when the
in-flight flag `isLoading` is set, `handleSend` does not call `sendMessage`:
the submission issues no outbound call and leaves the turn list, the flag and
the input as they are. -/
theorem handleSend_ignores_blank_or_busy (P : Platform) (v : ChatView)
    (h : (∀ c ∈ v.input.data, isJsWhiteSpace c = true) ∨ v.app.isLoading = true) :
    (handleSend v.input v.app.isLoading).sendMessageCalls = [] ∧
      (submit P v).calls = [] ∧ (submit P v).result = .ok v := by
  have hguard : (decide (trim v.input = "") || v.app.isLoading) = true := by
    rcases h with h | h
    · simp [trim_of_white v.input h]
    · simp [h]
  simp only [Bool.or_eq_true, decide_eq_true_eq] at hguard
  simp [submit, handleSend, hguard]

/-- Witness of C8: two spaces and a tab, no call in flight. -/
theorem handleSend_ignores_blank_or_busy_witness :
    (handleSend "  \t" false).sendMessageCalls = [] ∧
      (submit helloHost ⟨⟨initialMessages, false⟩, "  \t"⟩).calls = [] ∧
      (submit helloHost ⟨⟨initialMessages, false⟩, "  \t"⟩).result
        = .ok ⟨⟨initialMessages, false⟩, "  \t"⟩ :=
  handleSend_ignores_blank_or_busy helloHost ⟨⟨initialMessages, false⟩, "  \t"⟩
    (Or.inl (by decide))

/-- C9: when the relay answers with a success status and a body whose first
candidate has a content whose first part carries the text `t`, the ai turn
appended by `handleSendMessage` has content `t` itself. -/
theorem handleSendMessage_shows_generated_text (P : Platform) (userInput : String)
    (st : AppState) (response : FetchResponse) (result candidate content part : JsVal)
    (candidates parts : List JsVal) (t : String)
    (hfetch : P.fetch (translateCall userInput) = .ok response)
    (hstatus : 200 ≤ response.status ∧ response.status ≤ 299)
    (hbody : P.jsonParse response.body = .ok result)
    (hcandidates : getProp result "candidates" = .ok (.arr (candidate :: candidates)))
    (hcontent : getProp candidate "content" = .ok content)
    (hparts : getProp content "parts" = .ok (.arr (part :: parts)))
    (htext : getProp part "text" = .ok (.str t)) :
    (handleSendMessage P userInput st).result
      = .ok ⟨st.messages ++ [⟨.user, .str userInput⟩, ⟨.ai, .str t⟩], false⟩ := by
  have hok : response.ok = true := by
    simp [FetchResponse.ok, hstatus.1, hstatus.2]
  have htruthy : truthy content = true := by
    cases content <;> simp [getProp, truthy] at hparts ⊢
  have hblock : translationBlock P userInput = .ok (.str t) := by
    simp [translationBlock, hfetch, hok, FetchResponse.json, hbody, hcandidates, hcontent,
      hparts, htext, htruthy, getProp_arr_length, getIndex0_arr_cons, isZero_length_cons,
      truthy_arr, bind, Except.bind, pure, Except.pure]
  rw [handleSendMessage_of_block, hblock]

/-- Witness of C9: one candidate whose text is `Hello`. -/
theorem handleSendMessage_shows_generated_text_witness :
    (handleSendMessage helloHost "hi" ⟨initialMessages, false⟩).result
      = .ok ⟨initialMessages ++ [⟨.user, .str "hi"⟩, ⟨.ai, .str "Hello"⟩], false⟩ :=
  handleSendMessage_shows_generated_text helloHost "hi" ⟨initialMessages, false⟩
    ⟨200, helloText⟩ helloJson
    (.obj [("content", .obj [("parts", .arr [.obj [("text", .str "Hello")]])])])
    (.obj [("parts", .arr [.obj [("text", .str "Hello")]])])
    (.obj [("text", .str "Hello")]) [] [] "Hello"
    rfl (by decide) (by simp [helloHost, sampleHost]) (by simp [helloJson, getProp])
    (by simp [getProp]) (by simp [getProp]) (by simp [getProp])

/-- C10 fails as stated: the relay answers 200 with the body `null`, a
response that has no `candidates` field.  Reading `result.candidates` throws a
`TypeError`, and the ai turn carries the message of that error (here in the
wording of V8), not the no-content message. -/
theorem handleSendMessage_null_body :
    (handleSendMessage (sampleHost (.ok ⟨200, "null"⟩) [("null", .null)])
        "hi" ⟨initialMessages, false⟩).result
        = .ok ⟨initialMessages ++ [⟨.user, .str "hi"⟩,
            ⟨.ai, .str ("Sorry, I encountered an error: " ++
              "Cannot read properties of null (reading \x27candidates\x27)")⟩], false⟩ ∧
      "Sorry, I encountered an error: " ++
          "Cannot read properties of null (reading \x27candidates\x27)"
        ≠ "Sorry, I encountered an error: " ++
          "API returned no content. Check safety settings or prompt." := by
  refine ⟨?_, by decide⟩
  have hblock : translationBlock (sampleHost (.ok ⟨200, "null"⟩) [("null", .null)]) "hi"
      = .error (.typeError .null (.member "candidates")) := by
    simp [translationBlock, sampleHost, FetchResponse.ok, FetchResponse.json, getProp_null,
      bind, Except.bind, pure, Except.pure]
  rw [handleSendMessage_of_block, hblock]
  simp [errorIntro, JsError.message, sampleHost, v8TypeErrorMessage, Nullish.text]

/-- C10, amended: when the relay answers with a success status and a JSON body
that is `null`, or whose `candidates` is absent (or otherwise falsy), or is the
empty list, or is a list whose first candidate is `null` or has no (or a falsy)
`content`, `handleSendMessage` does not throw: it appends an ai turn whose
content is the error introduction followed by a message, a non-empty text.
When neither the body nor the first candidate is `null`, that message is the
no-content message. -/
theorem handleSendMessage_reports_missing_content (P : Platform) (userInput : String)
    (st : AppState) (response : FetchResponse) (result : JsVal)
    (hfetch : P.fetch (translateCall userInput) = .ok response)
    (hstatus : 200 ≤ response.status ∧ response.status ≤ 299)
    (hbody : P.jsonParse response.body = .ok result)
    (hshape :
      result = .null ∨
      (∃ v, getProp result "candidates" = .ok v ∧ truthy v = false) ∨
      getProp result "candidates" = .ok (.arr []) ∨
      (∃ candidate rest, getProp result "candidates" = .ok (.arr (candidate :: rest)) ∧
        (candidate = .null ∨ ∃ v, getProp candidate "content" = .ok v ∧ truthy v = false))) :
    ∃ message : String,
      (handleSendMessage P userInput st).result
        = .ok ⟨st.messages ++ [⟨.user, .str userInput⟩,
            ⟨.ai, .str ("Sorry, I encountered an error: " ++ message)⟩], false⟩ ∧
      "Sorry, I encountered an error: " ++ message ≠ "" ∧
      ((result ≠ .null ∧ ∀ candidate rest,
          getProp result "candidates" = .ok (.arr (candidate :: rest)) → candidate ≠ .null) →
        message = "API returned no content. Check safety settings or prompt.") := by
  have hok : response.ok = true := by
    simp [FetchResponse.ok, hstatus.1, hstatus.2]
  have hblock : ∃ error : JsError, translationBlock P userInput = .error error ∧
      ((result ≠ .null ∧ ∀ candidate rest,
          getProp result "candidates" = .ok (.arr (candidate :: rest)) → candidate ≠ .null) →
        error = mkError noContentMessage) := by
    rcases hshape with hnull | ⟨v, hv, hfalsy⟩ | hempty | ⟨candidate, rest, hc, hcand⟩
    · refine ⟨.typeError .null (.member "candidates"), ?_, fun h => absurd hnull h.1⟩
      simp [translationBlock, hfetch, hok, FetchResponse.json, hbody, hnull, getProp_null,
        bind, Except.bind, pure, Except.pure]
    · refine ⟨mkError noContentMessage, ?_, fun _ => rfl⟩
      simp [translationBlock, hfetch, hok, FetchResponse.json, hbody, hv, hfalsy, bind,
        Except.bind, pure, Except.pure, throw, throwThe, MonadExceptOf.throw]
    · refine ⟨mkError noContentMessage, ?_, fun _ => rfl⟩
      simp [translationBlock, hfetch, hok, FetchResponse.json, hbody, hempty,
        getProp_arr_length, truthy_arr, isZero, bind, Except.bind, pure, Except.pure, throw,
        throwThe, MonadExceptOf.throw]
    · rcases hcand with hcnull | ⟨v, hv, hfalsy⟩
      · refine ⟨.typeError .null (.member "content"), ?_, fun h => absurd hcnull (h.2 _ _ hc)⟩
        subst hcnull
        simp [translationBlock, hfetch, hok, FetchResponse.json, hbody, hc,
          getProp_arr_length, getIndex0_arr_cons, isZero_length_cons, truthy_arr,
          getProp_null, bind, Except.bind, pure, Except.pure]
      · refine ⟨mkError noContentMessage, ?_, fun _ => rfl⟩
        simp [translationBlock, hfetch, hok, FetchResponse.json, hbody, hc, hv, hfalsy,
          getProp_arr_length, getIndex0_arr_cons, isZero_length_cons, truthy_arr, bind,
          Except.bind, pure, Except.pure, throw, throwThe, MonadExceptOf.throw]
  obtain ⟨error, herror, hmessage⟩ := hblock
  refine ⟨error.message P, ?_, ?_, ?_⟩
  · rw [handleSendMessage_of_block, herror]
    rfl
  · intro hempty
    have hlength := congrArg String.length hempty
    simp [String.length_append] at hlength
    exact absurd hlength.1 (by decide)
  · intro h
    rw [hmessage h]
    rfl

/-- Witness of C10, amended: the body `{"candidates":[]}`. -/
theorem handleSendMessage_reports_missing_content_witness :
    ∃ message : String,
      (handleSendMessage
        (sampleHost (.ok ⟨200, "\x7b\"candidates\":[]\x7d"⟩)
          [("\x7b\"candidates\":[]\x7d", .obj [("candidates", .arr [])])])
        "hi" ⟨initialMessages, false⟩).result
        = .ok ⟨initialMessages ++ [⟨.user, .str "hi"⟩,
            ⟨.ai, .str ("Sorry, I encountered an error: " ++ message)⟩], false⟩ ∧
      "Sorry, I encountered an error: " ++ message ≠ "" ∧
      (((.obj [("candidates", .arr [])] : JsVal) ≠ .null ∧ ∀ candidate rest,
          getProp (.obj [("candidates", .arr [])]) "candidates"
            = .ok (.arr (candidate :: rest)) → candidate ≠ .null) →
        message = "API returned no content. Check safety settings or prompt.") :=
  handleSendMessage_reports_missing_content
    (sampleHost (.ok ⟨200, "\x7b\"candidates\":[]\x7d"⟩)
      [("\x7b\"candidates\":[]\x7d", .obj [("candidates", .arr [])])])
    "hi" ⟨initialMessages, false⟩ ⟨200, "\x7b\"candidates\":[]\x7d"⟩
    (.obj [("candidates", .arr [])])
    rfl (by decide) (by simp [sampleHost]) (Or.inr (Or.inr (Or.inl (by simp [getProp]))))

end ThoughtTranslator
